import Mathlib

/-!
Shallow embedding of the heuristic source-pattern auditor (audit_traits.py,
audit_arc_mutex.py, comprehensive_audit.py) and verification of its
specification claims.

Python strings are modelled as Lean `String` / `List Char`; the file system
is modelled as an association list of `(path, Option content)` pairs, where
`none` stands for a unit whose `open`/`read`/decode raises.  The Python `re`
engine is not embedded: where a component consumes regex match results
(header match positions, per-pattern match counts, per-line captured groups)
the embedding takes those results as a parameter, so every theorem below
holds for every value the regex engine could produce.
-/

namespace Audit

/-- Characters stripped by Python's `str.strip()` (ASCII whitespace). -/
def isPySpace (c : Char) : Bool :=
  c = ' ' || c = '\t' || c = '\n' || c = '\r' || c = '\x0b' || c = '\x0c'

/-- Python `str.strip()` on a list of characters. -/
def pyStrip (s : List Char) : List Char :=
  ((s.dropWhile isPySpace).reverse.dropWhile isPySpace).reverse

/-- Python `str.strip()` on a `String`. -/
def pyStripStr (s : String) : String :=
  String.mk (pyStrip s.toList)

/-- Python `needle in hay` substring test. -/
def strContains (hay needle : String) : Bool :=
  decide (needle.toList <:+: hay.toList)

/-- Python `s.startswith(pre)`. -/
def strStartsWith (s pre : String) : Bool :=
  decide (pre.toList <+: s.toList)

/-- Python `s.endswith(suf)`. -/
def strEndsWith (s suf : String) : Bool :=
  decide (suf.toList <:+ s.toList)

/-- Python `s.lower()` (ASCII). -/
def lowerStr (s : String) : String :=
  String.mk (s.toList.map Char.toLower)

/-- Python `s.capitalize()` (ASCII): first character upper-cased, rest lower-cased. -/
def pyCapitalize (s : String) : String :=
  match s.toList with
  | [] => s
  | c :: rest => String.mk (c.toUpper :: rest.map Char.toLower)

/-- Fuel-indexed scan for `countOcc`: every recursive call consumes at
least one character of the haystack, so `hay.length` fuel always suffices. -/
def countOccAux : Nat → List Char → List Char → Nat
  | 0, _, _ => 0
  | fuel + 1, needle, hay =>
    match hay with
    | [] => 0
    | c :: t =>
      if needle.isPrefixOf (c :: t) then
        1 + countOccAux fuel needle (List.drop (needle.length - 1) t)
      else
        countOccAux fuel needle t

/-- Python `hay.count(needle)` for a non-empty needle: number of
non-overlapping occurrences, scanning left to right (the scan advances past
a match). -/
def countOcc (needle : List Char) (hay : List Char) : Nat :=
  countOccAux hay.length needle hay

/-! ## audit_traits.py — `extract_traits` (lines 17-86)

The header regex (`trait_pattern`, lines 26-29) is not embedded; a header
match is represented by its captured name and by `match.end()`, the index
just past the header's opening brace.  `extract_traits` receives the list
of matches that `trait_pattern.finditer(content)` produced. -/

/-- One match of the trait-header regex: captured `name` and `match.end()`
(the position immediately after the opening `\x7b` of the header). -/
structure TraitMatch where
  name : String
  endPos : Nat
deriving DecidableEq, Repr

/-- Number of iterations of the `while pos < len(content) and brace_count > 0`
loop (lines 40-45) when started on the remaining text with the given
`brace_count`; equals `pos - start_pos` at loop exit. -/
def brace_steps : List Char → Nat → Nat
  | _, 0 => 0
  | [], _ + 1 => 0
  | c :: rest, k + 1 =>
    1 + brace_steps rest (if c = '{' then k + 2 else if c = '}' then k else k + 1)

/-- Value of `brace_count` at exit of the same loop. -/
def brace_final : List Char → Nat → Nat
  | _, 0 => 0
  | [], k + 1 => k + 1
  | c :: rest, k + 1 =>
    brace_final rest (if c = '{' then k + 2 else if c = '}' then k else k + 1)

/-- The local `trait_body = content[trait_body_start:pos-1]` of line 47:
`brace_count` starts at 1, `trait_body_start = start_pos = match.end()`. -/
def trait_body_at (content : List Char) (start_pos : Nat) : List Char :=
  let rest := content.drop start_pos
  rest.take (brace_steps rest 1 - 1)

/-- One extracted trait record.  `trait_body` is the raw span of line 47
(from which the source counts methods); `body` is the stripped copy stored
in the result dict (line 83).  The regex-based method / associated-type
counting is not needed by any claim and is not modelled. -/
structure TraitDecl where
  name : String
  trait_body : List Char
  body : List Char
deriving DecidableEq, Repr

/-- Function `extract_traits` (lines 31-86): for every header match, the matching
closing brace is searched by depth counting and a record is appended —
unconditionally, whether or not the loop found depth 0. -/
def extract_traits (content : List Char) (ms : List TraitMatch) : List TraitDecl :=
  ms.map (fun m =>
    let tb := trait_body_at content m.endPos
    { name := m.name, trait_body := tb, body := pyStrip tb })

/-- Delimiter balance of a body span, as the claims use it: the empty text,
a non-brace character before a balanced text, or a full `\x7b … \x7d` pair
enclosing a balanced text followed by a balanced text.  Arbitrary nesting
depth of same-kind pairs is reachable through `wrap`. -/
inductive Balanced : List Char → Prop
  | nil : Balanced []
  | char (c : Char) (h1 : c ≠ '{') (h2 : c ≠ '}') (b : List Char)
      (hb : Balanced b) : Balanced (c :: b)
  | wrap (b1 b2 : List Char) (hb1 : Balanced b1) (hb2 : Balanced b2) :
      Balanced ('{' :: b1 ++ '}' :: b2)

/-- The loop body never runs once the count is 0. -/
theorem brace_steps_zero (l : List Char) : brace_steps l 0 = 0 := by
  cases l <;> rfl

/-- A count of 0 stays 0. -/
theorem brace_final_zero (l : List Char) : brace_final l 0 = 0 := by
  cases l <;> rfl

/-- One step of the brace-counting loop. -/
theorem brace_steps_cons (c : Char) (rest : List Char) (k : Nat) :
    brace_steps (c :: rest) (k + 1)
      = 1 + brace_steps rest (if c = '{' then k + 2 else if c = '}' then k else k + 1) := rfl

/-- One step of the final-count computation. -/
theorem brace_final_cons (c : Char) (rest : List Char) (k : Nat) :
    brace_final (c :: rest) (k + 1)
      = brace_final rest (if c = '{' then k + 2 else if c = '}' then k else k + 1) := rfl

/-- Scanning a balanced span consumes exactly its characters without the
depth counter ever reaching 0. -/
theorem brace_steps_balanced (b : List Char) (hb : Balanced b) :
    ∀ (k : Nat) (t : List Char),
      brace_steps (b ++ t) (k + 1) = b.length + brace_steps t (k + 1) := by
  induction hb with
  | nil => intro k t; simp
  | char c h1 h2 b hb ih =>
    intro k t
    rw [List.cons_append, brace_steps_cons, if_neg h1, if_neg h2, ih k t,
      List.length_cons]
    omega
  | wrap b1 b2 hb1 hb2 ih1 ih2 =>
    intro k t
    have hassoc : ('{' :: b1 ++ '}' :: b2) ++ t = '{' :: (b1 ++ ('}' :: (b2 ++ t))) := by
      simp
    rw [hassoc, brace_steps_cons, if_pos rfl, ih1 (k + 1), brace_steps_cons,
      if_neg (by decide : ¬ ('}' : Char) = '{'), if_pos rfl, ih2 k]
    simp only [List.length_cons, List.length_append]
    omega

/-- If the loop's final `brace_count` is nonzero, the loop consumed the whole
remaining text. -/
theorem brace_steps_of_final_ne_zero (rest : List Char) :
    ∀ (k : Nat), brace_final rest (k + 1) ≠ 0 → brace_steps rest (k + 1) = rest.length := by
  induction rest with
  | nil => intro k _; rfl
  | cons c t ih =>
    intro k h
    rw [brace_final_cons] at h
    rw [brace_steps_cons]
    by_cases ho : c = '{'
    · rw [if_pos ho] at h
      rw [if_pos ho, ih (k + 1) h, List.length_cons]
      omega
    · by_cases hc : c = '}'
      · rw [if_neg ho, if_pos hc] at h
        rw [if_neg ho, if_pos hc]
        cases k with
        | zero => exact absurd (brace_final_zero t) h
        | succ k2 =>
          rw [ih k2 h, List.length_cons]
          omega
      · rw [if_neg ho, if_neg hc] at h
        rw [if_neg ho, if_neg hc, ih k h, List.length_cons]
        omega

/-! ## audit_traits.py — `check_trait_usage` (lines 88-123)

The corpus is the list of `(path, content?)` pairs produced by
`find_rust_files`, in traversal order; `none` marks a unit whose
`open`/`read` raises (the `except Exception: continue` of lines 120-121
skips that whole unit).  `matchCount pattern content` stands for
`len(re.findall(pattern, content))`; the guard `re.search(pattern, content)`
is truthy exactly when that count is positive. -/

/-- The search pattern `f"impl.*{trait_name}"` of line 100. -/
def impl_pattern (trait_name : String) : String := "impl.*" ++ trait_name

/-- The search pattern `f"dyn {trait_name}"` of line 101. -/
def dyn_pattern (trait_name : String) : String := "dyn " ++ trait_name

/-- The search pattern `f": {trait_name}"` of line 102. -/
def bound_pattern (trait_name : String) : String := ": " ++ trait_name

/-- The `usage_patterns` accumulator dict (lines 90-97). -/
structure UsagePatterns where
  impl_count : Nat
  dyn_usage : Nat
  bound_usage : Nat
  impl_files : List String
  dyn_files : List String
  bound_files : List String
deriving DecidableEq, Repr

/-- Function `check_trait_usage` (lines 88-123), processing units in corpus order. -/
def check_trait_usage (matchCount : String → String → Nat) (trait_name : String) :
    List (String × Option String) → UsagePatterns
  | [] => ⟨0, 0, 0, [], [], []⟩
  | (path, content) :: rest =>
    let u := check_trait_usage matchCount trait_name rest
    match content with
    | none => u
    | some s =>
      let ic := matchCount (impl_pattern trait_name) s
      let dc := matchCount (dyn_pattern trait_name) s
      let bc := matchCount (bound_pattern trait_name) s
      { impl_count := (if 0 < ic then ic else 0) + u.impl_count
        dyn_usage := (if 0 < dc then dc else 0) + u.dyn_usage
        bound_usage := (if 0 < bc then bc else 0) + u.bound_usage
        impl_files := (if 0 < ic then [path] else []) ++ u.impl_files
        dyn_files := (if 0 < dc then [path] else []) ++ u.dyn_files
        bound_files := (if 0 < bc then [path] else []) ++ u.bound_files }

/-! ## audit_traits.py — `analyze_trait_necessity` (lines 125-164) -/

/-- The fields of a `trait_info` dict that the classifier reads. -/
structure TraitInfo where
  method_count : Nat
  assoc_types : List String
  has_generics : Bool
deriving DecidableEq, Repr

/-- The three categories returned at lines 160-164. -/
inductive Category where
  | DEFINITELY_REMOVE
  | MAYBE_REMOVE
  | KEEP_AS_IS
deriving DecidableEq, Repr

/-- List `reasons_to_keep` as accumulated by the appends of lines 135-156,
in append order. -/
def keep_reasons (trait_info : TraitInfo) (usage : UsagePatterns) : List String :=
  (if trait_info.assoc_types ≠ [] then
    ["Has associated types: " ++ String.intercalate ", " trait_info.assoc_types]
  else []) ++
  (if trait_info.has_generics then ["Uses generics/lifetimes"] else []) ++
  (if 0 < usage.dyn_usage then
    ["Used in trait objects (" ++ toString usage.dyn_usage ++ " times)"]
  else []) ++
  (if 1 < usage.impl_count then
    ["Multiple implementations (" ++ toString usage.impl_count ++ ")"]
  else []) ++
  (if 2 < usage.bound_usage then
    ["Used as trait bound (" ++ toString usage.bound_usage ++ " times)"]
  else [])

/-- List `reasons_to_remove` as accumulated by the appends of lines 131-152,
in append order (the `impl_count` trichotomy of lines 147-152 is an
`if`/`elif`/`elif` chain). -/
def remove_reasons (trait_info : TraitInfo) (usage : UsagePatterns) : List String :=
  (if trait_info.method_count = 1 then ["Single method trait"] else []) ++
  (if 1 < usage.impl_count then []
   else if usage.impl_count = 0 then ["No implementations found"]
   else if usage.impl_count = 1 then ["Only one implementation"]
   else [])

/-- Function `analyze_trait_necessity` (lines 125-164): reason accumulation followed
by the decision chain of lines 159-164. -/
def analyze_trait_necessity (trait_info : TraitInfo) (usage : UsagePatterns) :
    Category × List String × List String :=
  let reasons_to_keep := keep_reasons trait_info usage
  let reasons_to_remove := remove_reasons trait_info usage
  if reasons_to_keep = [] ∧ reasons_to_remove ≠ [] then
    (Category.DEFINITELY_REMOVE, reasons_to_keep, reasons_to_remove)
  else if reasons_to_keep.length ≤ 1 ∧ 2 ≤ reasons_to_remove.length then
    (Category.MAYBE_REMOVE, reasons_to_keep, reasons_to_remove)
  else
    (Category.KEEP_AS_IS, reasons_to_keep, reasons_to_remove)

/-- Whatever branch is taken, the returned reason lists are the accumulated
ones. -/
theorem analyze_trait_necessity_snd (trait_info : TraitInfo) (usage : UsagePatterns) :
    (analyze_trait_necessity trait_info usage).2
      = (keep_reasons trait_info usage, remove_reasons trait_info usage) := by
  unfold analyze_trait_necessity
  simp only []
  split_ifs <;> rfl

/-! ## audit_arc_mutex.py — `is_test_file` (lines 22-32) and the
comprehensive_audit.py variant (lines 22-33, which adds `benches/`). -/

/-- Function `is_test_file` of audit_arc_mutex.py (lines 22-32). -/
def is_test_file (path : String) : Bool :=
  strContains path "/tests/" ||
  strContains path "/test/" ||
  strEndsWith path "_test.rs" ||
  strEndsWith path "_tests.rs" ||
  strContains path "test_" ||
  strContains path "tests.rs"

/-- Function `is_test_file` of comprehensive_audit.py (lines 22-33): the same
disjunction plus `'benches/' in path_str`. -/
def is_test_file_comprehensive (path : String) : Bool :=
  strContains path "/tests/" ||
  strContains path "/test/" ||
  strEndsWith path "_test.rs" ||
  strEndsWith path "_tests.rs" ||
  strContains path "test_" ||
  strContains path "tests.rs" ||
  strContains path "benches/"

/-- Classifier following the words of the spec (§6) for comparison with the
code: a unit is test code iff its path contains a tests-directory segment or
ends with a test-suffix naming convention. -/
def spec_is_test_path (path : String) : Bool :=
  strContains path "/tests/" ||
  strContains path "/test/" ||
  strEndsWith path "_test.rs" ||
  strEndsWith path "_tests.rs" ||
  strEndsWith path "tests.rs"

/-! ## audit_arc_mutex.py — `extract_arc_mutex_usage` (lines 34-60)

`lineMatches line` stands for the captured inner types
`[m.group(1) for m in re.finditer(pattern, line)]` of the single-line
`Arc<Mutex<...>>` regex on one line; the regex engine itself is not
embedded. -/

/-- Context-window computation of lines 47-49 at a 1-based match line number:
`lines[max(0, line_num - 3) : min(len(lines), line_num + 3)]`.  (Between
`Nat`s, `max 0 (line_num - 3)` equals Python's clamp of the possibly
negative `line_num - 3`.) -/
def context_window (lines : List String) (line_num : Nat) : List String :=
  let context_start := max 0 (line_num - 3)
  let context_end := min lines.length (line_num + 3)
  (lines.take context_end).drop context_start

/-- One occurrence dict appended at lines 51-58 (`file` and `full_match` are
omitted: no claim reads them). -/
structure ArcOcc where
  line : Nat
  inner_type : String
  line_content : String
  context : String
deriving DecidableEq, Repr

/-- Function `extract_arc_mutex_usage` (lines 34-60) on one unit's decoded text. -/
def extract_arc_mutex_usage (lineMatches : String → List String) (content : String) :
    List ArcOcc :=
  let lines := content.splitOn "\n"
  lines.enum.flatMap (fun p =>
    (lineMatches p.2).map (fun inner =>
      { line := p.1 + 1
        inner_type := inner
        line_content := pyStripStr p.2
        context := String.intercalate "\n" (context_window lines (p.1 + 1)) }))

/-- The per-corpus extraction loop of `main` (audit_arc_mutex.py lines
132-148): `extract_arc_mutex_usage` opens each unit with no exception
handler, so an unreadable or undecodable unit (`none`) raises out of the
loop and the run produces no result (`none`); otherwise the occurrence
lists of all units are collected in corpus order. -/
def arc_mutex_scan (lineMatches : String → List String) :
    List (String × Option String) → Option (List ArcOcc)
  | [] => some []
  | (_, none) :: _ => none
  | (_, some s) :: rest =>
    match arc_mutex_scan lineMatches rest with
    | none => none
    | some acc => some (extract_arc_mutex_usage lineMatches s ++ acc)

/-! ## audit_arc_mutex.py — `analyze_usage_pattern` (lines 62-118)

The read-heavy check of line 94 is
`reads_in_context > locks_in_context * 0.7`, where the two operands are the
regex match counts of lines 91-92 over the occurrence's context window and
`0.7` is a binary64 float (so the product is rounded and the check fires,
for example, at `locks=90, reads=63`).  Neither the regex engine nor
binary-float arithmetic is embedded: the check's truth value is taken as
the parameter `read_heavy`, exactly as the regex results are parameters
elsewhere, so the claims hold for every value the program's comparison
could produce. -/

/-- The `simple_types` list of line 72. -/
def simple_types : List String :=
  ["bool", "i32", "i64", "u32", "u64", "f32", "f64", "usize", "isize"]

/-- Check of lines 72-75: the inner type starts with a primitive scalar name. -/
def check_simple_type (inner_type : String) : Bool :=
  simple_types.any (fun t => strStartsWith inner_type t)

/-- Check of lines 78-80: the file has more than five `.clone()` calls. -/
def check_many_clones (file_content : String) : Bool :=
  5 < countOcc ".clone()".toList file_content.toList

/-- The `thread_keywords` list of line 99. -/
def thread_keywords : List String :=
  ["spawn", "thread::", "tokio::spawn", "async", "send", "sync"]

/-- Check of lines 99-100, negated at line 102: no threading keyword occurs
in the lower-cased file text. -/
def check_no_threading (file_content : String) : Bool :=
  ! thread_keywords.any (fun k => strContains (lowerStr file_content) k)

/-- Check of line 107: channel-flavoured inner type or file text. -/
def check_channel (inner_type file_content : String) : Bool :=
  strContains (lowerStr inner_type) "sender" ||
  strContains (lowerStr inner_type) "receiver" ||
  strContains (lowerStr file_content) "channel"

/-- Check of line 111: created and immediately cloned on the same line. -/
def check_defensive (line_content : String) : Bool :=
  strContains line_content ".clone()" && strContains line_content "Arc::new(Mutex::new"

/-- The analysis dict returned at lines 114-118. -/
structure Analysis where
  issues : List String
  recommendations : List String
  severity : String
deriving DecidableEq, Repr

/-- Function `analyze_usage_pattern` (lines 62-118): each check appends its issue
and/or recommendation in program order; severity is the if-chain of
line 117 over the final issue count.  `read_heavy` is the truth value of
the float comparison of line 94 (see the section comment). -/
def analyze_usage_pattern (usage : ArcOcc) (file_content : String)
    (read_heavy : Bool) : Analysis :=
  let clone_count := countOcc ".clone()".toList file_content.toList
  let issues :=
    (if check_simple_type usage.inner_type then
      ["Simple atomic type - consider using atomic primitives"] else []) ++
    (if check_many_clones file_content then
      ["File has " ++ toString clone_count ++ " .clone() calls - possible excessive sharing"]
    else []) ++
    (if read_heavy then
      ["Appears to be read-heavy"] else []) ++
    (if check_no_threading file_content then
      ["No obvious threading/async usage in file"] else []) ++
    (if check_defensive usage.line_content then
      ["Created and immediately cloned - might be defensive programming"] else [])
  let recommendations :=
    (if check_simple_type usage.inner_type then
      ["Use Atomic" ++ pyCapitalize usage.inner_type ++ " instead"] else []) ++
    (if read_heavy then
      ["Consider Arc<RwLock<T>> for better read concurrency"] else []) ++
    (if check_no_threading file_content then
      ["Might not need Arc - consider Rc<RefCell<T>> or plain ownership"] else []) ++
    (if check_channel usage.inner_type file_content then
      ["Consider using channels for producer/consumer pattern"] else [])
  { issues := issues
    recommendations := recommendations
    severity :=
      if 3 ≤ issues.length then "HIGH"
      else if 1 ≤ issues.length then "MEDIUM"
      else "LOW" }

/-- Numeric order of the three severity strings: LOW < MEDIUM < HIGH. -/
def sevRank (s : String) : Nat :=
  if s = "HIGH" then 2 else if s = "MEDIUM" then 1 else 0

/-! ## Helper lemmas -/

/-- The issue list of one analysis has one entry per true issue-appending
check (the channel check of line 107 appends no issue). -/
theorem analyze_usage_pattern_issues_length (u : ArcOcc) (fc : String)
    (read_heavy : Bool) :
    (analyze_usage_pattern u fc read_heavy).issues.length =
      (if check_simple_type u.inner_type then 1 else 0) +
      (if check_many_clones fc then 1 else 0) +
      (if read_heavy then 1 else 0) +
      (if check_no_threading fc then 1 else 0) +
      (if check_defensive u.line_content then 1 else 0) := by
  unfold analyze_usage_pattern
  simp only []
  split_ifs <;> simp

/-- The recommendation list has one entry per true recommending check. -/
theorem analyze_usage_pattern_recs_length (u : ArcOcc) (fc : String)
    (read_heavy : Bool) :
    (analyze_usage_pattern u fc read_heavy).recommendations.length =
      (if check_simple_type u.inner_type then 1 else 0) +
      (if read_heavy then 1 else 0) +
      (if check_no_threading fc then 1 else 0) +
      (if check_channel u.inner_type fc then 1 else 0) := by
  unfold analyze_usage_pattern
  simp only []
  split_ifs <;> simp

/-- Severity is the threshold chain of line 117 over the final issue count. -/
theorem analyze_usage_pattern_severity (u : ArcOcc) (fc : String)
    (read_heavy : Bool) :
    (analyze_usage_pattern u fc read_heavy).severity =
      (if 3 ≤ (analyze_usage_pattern u fc read_heavy).issues.length then "HIGH"
       else if 1 ≤ (analyze_usage_pattern u fc read_heavy).issues.length then "MEDIUM"
       else "LOW") := rfl

/-- Rank of the threshold chain. -/
theorem sevRank_threshold (n : Nat) :
    sevRank (if 3 ≤ n then "HIGH" else if 1 ≤ n then "MEDIUM" else "LOW")
      = (if 3 ≤ n then 2 else if 1 ≤ n then 1 else 0) := by
  unfold sevRank
  split_ifs <;> simp_all

/-- Indicator counts are monotone under boolean implication. -/
theorem indicator_mono {b1 b2 : Bool} (h : b1 = true → b2 = true) :
    (if b1 then (1 : Nat) else 0) ≤ (if b2 then 1 else 0) := by
  cases b1 <;> cases b2 <;> simp_all

/-! ## Claims -/

/-- C2 (confirmed): for every unit text and every declaration header match
whose following text is delimiter-balanced, the extracted body is exactly
the substring between the header's opening delimiter and its
textually-matching closing delimiter — the depth counter starts at 1 just
after the opening delimiter and the body ends, exclusive, where it returns
to 0 — for any nesting depth of same-kind delimiter pairs in the body. -/
theorem c2_balanced_extraction (content : List Char) (m : TraitMatch)
    (body tail : List Char) (hb : Balanced body)
    (hrest : content.drop m.endPos = body ++ '}' :: tail) :
    (extract_traits content [m]).map TraitDecl.trait_body = [body] := by
  simp only [extract_traits, trait_body_at, List.map_cons, List.map_nil]
  rw [hrest]
  have hsteps := brace_steps_balanced body hb 0 ('}' :: tail)
  have hone : brace_steps ('}' :: tail) (0 + 1) = 1 := by
    rw [brace_steps_cons, if_neg (by decide : ¬ ('}' : Char) = '{'), if_pos rfl,
      brace_steps_zero]
  rw [hone] at hsteps
  norm_num at hsteps
  rw [hsteps]
  simp [List.take_left]

/-- C2 witness: a two-level-nested balanced body is extracted exactly. -/
theorem c2_balanced_extraction_witness :
    (extract_traits ("trait A ".toList ++ ['{', '{', '{', '}', '}', '}', 'x'])
        [⟨"A", 9⟩]).map TraitDecl.trait_body = [['{', '{', '}', '}']] :=
  c2_balanced_extraction _ _ _ ['x']
    (Balanced.wrap ['{', '}'] []
      (Balanced.wrap [] [] Balanced.nil Balanced.nil) Balanced.nil)
    (by decide)

/-- C1 counterexample: on the unit text `trait A \x7bfn f();` the header
matches (with `match.end() = 9`) and the depth counter never returns to 0,
yet the extractor still produces a DeclarationUnit — with the fabricated
truncated body `fn f()` — instead of skipping the declaration. -/
theorem c1_claim_counterexample :
    brace_final (("trait A \x7bfn f();".toList).drop 9) 1 ≠ 0 ∧
    (extract_traits ("trait A \x7bfn f();".toList) [⟨"A", 9⟩]).map TraitDecl.trait_body
      = ["fn f()".toList] ∧
    extract_traits ("trait A \x7bfn f();".toList) [⟨"A", 9⟩] ≠ [] := by
  refine ⟨by decide, by decide, by decide⟩

/-- C1 (corrected): when a declaration header matches but the depth counter
never reaches 0 before end-of-text, the extractor does NOT skip the
declaration: it still emits a DeclarationUnit for it, whose raw body is the
fabricated truncation of the remaining text with its final character
removed. -/
theorem c1_unbalanced_emits_truncated (content : List Char) (m : TraitMatch)
    (h : brace_final (content.drop m.endPos) 1 ≠ 0) :
    (extract_traits content [m]).map TraitDecl.trait_body
      = [(content.drop m.endPos).take ((content.drop m.endPos).length - 1)] := by
  simp only [extract_traits, trait_body_at, List.map_cons, List.map_nil]
  have h1 := brace_steps_of_final_ne_zero (content.drop m.endPos) 0 h
  norm_num at h1
  rw [h1]
  simp [List.length_drop]

/-- C1 witness: a concrete unbalanced declaration still yields one record,
carrying the remaining text minus its last character. -/
theorem c1_unbalanced_emits_truncated_witness :
    (extract_traits ("trait B \x7blet y = 1;".toList) [⟨"B", 9⟩]).map TraitDecl.trait_body
      = [(("trait B \x7blet y = 1;".toList).drop 9).take
          ((("trait B \x7blet y = 1;".toList).drop 9).length - 1)] :=
  c1_unbalanced_emits_truncated _ _ (by decide)

/-- C3 (confirmed): the declaration classifier returns the accumulated
reason lists unchanged and decides `DEFINITELY_REMOVE` exactly when
keep-reasons is empty and remove-reasons non-empty, otherwise
`MAYBE_REMOVE` exactly when at most one keep-reason and at least two
remove-reasons, otherwise `KEEP_AS_IS`; and the `impl_count` trichotomy of
rules 4b/4c/4d fires exactly one branch. -/
theorem c3_classifier_decision (t : TraitInfo) (u : UsagePatterns) :
    (analyze_trait_necessity t u).2.1 = keep_reasons t u ∧
    (analyze_trait_necessity t u).2.2 = remove_reasons t u ∧
    ((analyze_trait_necessity t u).1 = Category.DEFINITELY_REMOVE ↔
      (keep_reasons t u = [] ∧ remove_reasons t u ≠ [])) ∧
    ((analyze_trait_necessity t u).1 = Category.MAYBE_REMOVE ↔
      (¬(keep_reasons t u = [] ∧ remove_reasons t u ≠ []) ∧
        (keep_reasons t u).length ≤ 1 ∧ 2 ≤ (remove_reasons t u).length)) ∧
    ((analyze_trait_necessity t u).1 = Category.KEEP_AS_IS ↔
      (¬(keep_reasons t u = [] ∧ remove_reasons t u ≠ []) ∧
        ¬((keep_reasons t u).length ≤ 1 ∧ 2 ≤ (remove_reasons t u).length))) ∧
    ((if 1 < u.impl_count then 1 else 0) + (if u.impl_count = 0 then 1 else 0)
        + (if u.impl_count = 1 then 1 else 0) = 1) := by
  refine ⟨?_, ?_, ?_, ?_, ?_, ?_⟩
  · rw [show (analyze_trait_necessity t u).2.1
        = ((analyze_trait_necessity t u).2).1 from rfl, analyze_trait_necessity_snd]
  · rw [show (analyze_trait_necessity t u).2.2
        = ((analyze_trait_necessity t u).2).2 from rfl, analyze_trait_necessity_snd]
  · unfold analyze_trait_necessity
    simp only []
    split_ifs with h1 h2 <;> simp_all
  · unfold analyze_trait_necessity
    simp only []
    split_ifs with h1 h2 <;> simp_all
  · unfold analyze_trait_necessity
    simp only []
    split_ifs with h1 h2 <;> simp_all
  · split_ifs <;> omega

/-- C10 (confirmed): for every input the classifier never returns with both
reason lists empty — the `impl_count` trichotomy always appends a reason, so
keep-reasons and remove-reasons together always hold at least one entry. -/
theorem c10_reasons_never_both_empty (t : TraitInfo) (u : UsagePatterns) :
    1 ≤ (analyze_trait_necessity t u).2.1.length
        + (analyze_trait_necessity t u).2.2.length := by
  have hsnd := analyze_trait_necessity_snd t u
  have h1 : (analyze_trait_necessity t u).2.1 = keep_reasons t u := by
    rw [show (analyze_trait_necessity t u).2.1
        = ((analyze_trait_necessity t u).2).1 from rfl, hsnd]
  have h2 : (analyze_trait_necessity t u).2.2 = remove_reasons t u := by
    rw [show (analyze_trait_necessity t u).2.2
        = ((analyze_trait_necessity t u).2).2 from rfl, hsnd]
  rw [h1, h2]
  unfold keep_reasons remove_reasons
  split_ifs <;> simp_all <;> omega

/-- A count guarded by its own positivity is the count itself. -/
theorem ite_pos_self (n : Nat) : (if 0 < n then n else 0) = n := by
  cases n <;> simp

/-- Equation: an unreadable unit is skipped by the profiling loop. -/
theorem check_trait_usage_cons_none (mc : String → String → Nat) (name qp : String)
    (rest : List (String × Option String)) :
    check_trait_usage mc name ((qp, none) :: rest) = check_trait_usage mc name rest := rfl

/-- Equation: a readable unit contributes its per-pattern counts and (when a
pattern matched at all) its path. -/
theorem check_trait_usage_cons_some (mc : String → String → Nat) (name qp s : String)
    (rest : List (String × Option String)) :
    check_trait_usage mc name ((qp, some s) :: rest) =
      { impl_count := (if 0 < mc (impl_pattern name) s then mc (impl_pattern name) s else 0)
            + (check_trait_usage mc name rest).impl_count
        dyn_usage := (if 0 < mc (dyn_pattern name) s then mc (dyn_pattern name) s else 0)
            + (check_trait_usage mc name rest).dyn_usage
        bound_usage := (if 0 < mc (bound_pattern name) s then mc (bound_pattern name) s else 0)
            + (check_trait_usage mc name rest).bound_usage
        impl_files := (if 0 < mc (impl_pattern name) s then [qp] else [])
            ++ (check_trait_usage mc name rest).impl_files
        dyn_files := (if 0 < mc (dyn_pattern name) s then [qp] else [])
            ++ (check_trait_usage mc name rest).dyn_files
        bound_files := (if 0 < mc (bound_pattern name) s then [qp] else [])
            ++ (check_trait_usage mc name rest).bound_files } := rfl

/-- Equation: the extraction corpus pass on a readable head unit. -/
theorem arc_mutex_scan_cons_some (lm : String → List String) (qp s : String)
    (rest : List (String × Option String)) :
    arc_mutex_scan lm ((qp, some s) :: rest) =
      (match arc_mutex_scan lm rest with
       | none => none
       | some acc => some (extract_arc_mutex_usage lm s ++ acc)) := rfl

/-- C8 (confirmed): for every construct name and corpus, each of the
implementation/dynamic/bound counts equals the sum over all readable units
of that unit's match count for the corresponding pattern — never merely the
number of units — and each unit list contains exactly the readable units
with at least one match of that kind, in corpus order. -/
theorem c8_usage_profile_sums (matchCount : String → String → Nat)
    (trait_name : String) (corpus : List (String × Option String)) :
    (check_trait_usage matchCount trait_name corpus).impl_count
        = (corpus.map (fun pc => match pc.2 with
            | some s => matchCount (impl_pattern trait_name) s
            | none => 0)).sum ∧
    (check_trait_usage matchCount trait_name corpus).dyn_usage
        = (corpus.map (fun pc => match pc.2 with
            | some s => matchCount (dyn_pattern trait_name) s
            | none => 0)).sum ∧
    (check_trait_usage matchCount trait_name corpus).bound_usage
        = (corpus.map (fun pc => match pc.2 with
            | some s => matchCount (bound_pattern trait_name) s
            | none => 0)).sum ∧
    (check_trait_usage matchCount trait_name corpus).impl_files
        = corpus.filterMap (fun pc => pc.2.bind (fun s =>
            if 0 < matchCount (impl_pattern trait_name) s then some pc.1 else none)) ∧
    (check_trait_usage matchCount trait_name corpus).dyn_files
        = corpus.filterMap (fun pc => pc.2.bind (fun s =>
            if 0 < matchCount (dyn_pattern trait_name) s then some pc.1 else none)) ∧
    (check_trait_usage matchCount trait_name corpus).bound_files
        = corpus.filterMap (fun pc => pc.2.bind (fun s =>
            if 0 < matchCount (bound_pattern trait_name) s then some pc.1 else none)) := by
  induction corpus with
  | nil => exact ⟨rfl, rfl, rfl, rfl, rfl, rfl⟩
  | cons pc rest ih =>
    obtain ⟨path, content⟩ := pc
    obtain ⟨ih1, ih2, ih3, ih4, ih5, ih6⟩ := ih
    cases content with
    | none =>
      simp only [check_trait_usage, List.map_cons, List.sum_cons, List.filterMap_cons,
        Option.bind_none]
      exact ⟨by simp [ih1], by simp [ih2], by simp [ih3], ih4, ih5, ih6⟩
    | some s =>
      simp only [check_trait_usage_cons_some, List.map_cons, List.sum_cons,
        List.filterMap_cons, Option.bind_some]
      refine ⟨?_, ?_, ?_, ?_, ?_, ?_⟩
      · rw [ite_pos_self, ih1]
      · rw [ite_pos_self, ih2]
      · rw [ite_pos_self, ih3]
      · by_cases hp : 0 < matchCount (impl_pattern trait_name) s <;> simp [hp, ih4]
      · by_cases hp : 0 < matchCount (dyn_pattern trait_name) s <;> simp [hp, ih5]
      · by_cases hp : 0 < matchCount (bound_pattern trait_name) s <;> simp [hp, ih6]

/-- C4 counterexample: a corpus whose second unit cannot be read makes the
Arc-Mutex extraction pass abort (no result at all), although the first unit
was perfectly readable — contradicting "every scan pass skips that unit and
the run never aborts". -/
theorem c4_claim_counterexample :
    arc_mutex_scan (fun _ => [])
      [("a.rs", some "fn main()"), ("b.rs", (none : Option String))] = none := rfl

/-- C4 (corrected): the usage-profiling pass (`check_trait_usage`) skips an
unreadable unit with no effect on the counts and per-file listings computed
from the other units and never aborts; the occurrence-extraction corpus pass
of audit_arc_mutex.py, however, has no exception handler and aborts the run
on the first unreadable unit. -/
theorem c4_unreadable_unit (matchCount : String → String → Nat)
    (trait_name : String) (lineMatches : String → List String)
    (pre post : List (String × Option String)) (p : String) :
    check_trait_usage matchCount trait_name (pre ++ (p, (none : Option String)) :: post)
        = check_trait_usage matchCount trait_name (pre ++ post) ∧
    arc_mutex_scan lineMatches (pre ++ (p, (none : Option String)) :: post) = none := by
  induction pre with
  | nil => exact ⟨rfl, rfl⟩
  | cons q rest ih =>
    obtain ⟨ihA, ihB⟩ := ih
    obtain ⟨qp, qc⟩ := q
    constructor
    · rw [List.cons_append, List.cons_append]
      cases qc with
      | none =>
        rw [check_trait_usage_cons_none, check_trait_usage_cons_none]
        exact ihA
      | some s =>
        rw [check_trait_usage_cons_some, check_trait_usage_cons_some, ihA]
    · rw [List.cons_append]
      cases qc with
      | none => rfl
      | some s =>
        rw [arc_mutex_scan_cons_some, ihB]

/-- C5 counterexample: a match on line 4 of a seven-line unit is at least 3
lines from either end, yet the recorded window holds 2 lines before the
matched line and 3 lines after it — not the same fixed number on each
side. -/
theorem c5_claim_counterexample :
    context_window ["L1", "L2", "L3", "L4", "L5", "L6", "L7"] 4
        = ["L2", "L3", "L4", "L5", "L6", "L7"] ∧
    ((context_window ["L1", "L2", "L3", "L4", "L5", "L6", "L7"] 4).takeWhile
        (fun s => s != "L4")).length = 2 ∧
    ((context_window ["L1", "L2", "L3", "L4", "L5", "L6", "L7"] 4).reverse.takeWhile
        (fun s => s != "L4")).length = 3 := by
  refine ⟨by decide, by decide, by decide⟩

/-- C5 (corrected): for every single-line occurrence match at least 3 lines
from either end of the unit, the recorded context window is asymmetric: it
consists of exactly the 2 lines before the matched line, the matched line,
and the 3 lines after it (6 lines in total). -/
theorem c5_window_two_before_three_after (lines : List String) (line_num : Nat)
    (h1 : 4 ≤ line_num) (h2 : line_num + 3 ≤ lines.length) :
    context_window lines line_num
        = (lines.drop (line_num - 3)).take 2 ++ (lines.drop (line_num - 1)).take 4 ∧
    (context_window lines line_num).length = 6 := by
  have hwin : context_window lines line_num
      = (lines.drop (line_num - 3)).take 2 ++ (lines.drop (line_num - 1)).take 4 := by
    unfold context_window
    simp only []
    rw [show max 0 (line_num - 3) = line_num - 3 from by omega,
      show min lines.length (line_num + 3) = line_num + 3 from by omega,
      List.drop_take,
      show line_num + 3 - (line_num - 3) = 2 + 4 from by omega,
      List.take_add, List.drop_drop,
      show line_num - 3 + 2 = line_num - 1 from by omega]
  refine ⟨hwin, ?_⟩
  rw [hwin]
  simp only [List.length_append, List.length_take, List.length_drop]
  omega

/-- C5 witness: the amended window shape at the concrete seven-line unit. -/
theorem c5_window_two_before_three_after_witness :
    context_window ["M1", "M2", "M3", "M4", "M5", "M6", "M7"] 4
        = ((["M1", "M2", "M3", "M4", "M5", "M6", "M7"] : List String).drop 1).take 2
          ++ ((["M1", "M2", "M3", "M4", "M5", "M6", "M7"] : List String).drop 3).take 4 ∧
    (context_window ["M1", "M2", "M3", "M4", "M5", "M6", "M7"] 4).length = 6 :=
  c5_window_two_before_three_after _ 4 (by decide) (by decide)

/-- C6 counterexample: an occurrence whose inner type is channel-flavoured,
in a file with threading keywords, few clones and no other triggers, makes
the channel check true — and that check appends a recommendation while the
issues list stays empty, so a check appended a recommendation without an
issue (and a true check appended no issue at all). -/
theorem c6_claim_counterexample :
    check_channel "Sender<u8>" "tokio::spawn" = true ∧
    (analyze_usage_pattern ⟨1, "Sender<u8>", "let s;", ""⟩ "tokio::spawn" false).issues = [] ∧
    (analyze_usage_pattern ⟨1, "Sender<u8>", "let s;", ""⟩ "tokio::spawn" false).recommendations
        = ["Consider using channels for producer/consumer pattern"] := by
  refine ⟨by decide, by decide, by decide⟩

/-- C6 (corrected): each true check appends at most one issue and at most
one recommendation — the simple-type, many-clones, read-heavy, no-threading
and defensive checks each append exactly one issue when true, and the
simple-type, read-heavy and no-threading checks also one recommendation —
but the channel-pattern check appends one recommendation and no issue. -/
theorem c6_issue_and_rec_counts (u : ArcOcc) (fc : String) (read_heavy : Bool) :
    (analyze_usage_pattern u fc read_heavy).issues.length =
      (if check_simple_type u.inner_type then 1 else 0) +
      (if check_many_clones fc then 1 else 0) +
      (if read_heavy then 1 else 0) +
      (if check_no_threading fc then 1 else 0) +
      (if check_defensive u.line_content then 1 else 0) ∧
    (analyze_usage_pattern u fc read_heavy).recommendations.length =
      (if check_simple_type u.inner_type then 1 else 0) +
      (if read_heavy then 1 else 0) +
      (if check_no_threading fc then 1 else 0) +
      (if check_channel u.inner_type fc then 1 else 0) :=
  ⟨analyze_usage_pattern_issues_length u fc read_heavy,
   analyze_usage_pattern_recs_length u fc read_heavy⟩

/-- C7 (confirmed): when the true heuristic checks of one input form a
superset of those of another, the computed severity does not decrease under
the order LOW < MEDIUM < HIGH; severity is HIGH iff at least 3 issues,
MEDIUM iff at least 1 (and fewer than 3), else LOW. -/
theorem c7_severity_monotone (u1 u2 : ArcOcc) (f1 f2 : String) (rh1 rh2 : Bool)
    (hs : check_simple_type u1.inner_type = true → check_simple_type u2.inner_type = true)
    (hc : check_many_clones f1 = true → check_many_clones f2 = true)
    (hr : rh1 = true → rh2 = true)
    (hn : check_no_threading f1 = true → check_no_threading f2 = true)
    (hd : check_defensive u1.line_content = true → check_defensive u2.line_content = true)
    (hch : check_channel u1.inner_type f1 = true → check_channel u2.inner_type f2 = true) :
    sevRank (analyze_usage_pattern u1 f1 rh1).severity
        ≤ sevRank (analyze_usage_pattern u2 f2 rh2).severity ∧
    ((analyze_usage_pattern u2 f2 rh2).severity = "HIGH" ↔
      3 ≤ (analyze_usage_pattern u2 f2 rh2).issues.length) ∧
    ((analyze_usage_pattern u2 f2 rh2).severity = "MEDIUM" ↔
      (1 ≤ (analyze_usage_pattern u2 f2 rh2).issues.length ∧
        (analyze_usage_pattern u2 f2 rh2).issues.length < 3)) ∧
    ((analyze_usage_pattern u2 f2 rh2).severity = "LOW" ↔
      (analyze_usage_pattern u2 f2 rh2).issues.length = 0) := by
  have hlen : (analyze_usage_pattern u1 f1 rh1).issues.length
      ≤ (analyze_usage_pattern u2 f2 rh2).issues.length := by
    rw [analyze_usage_pattern_issues_length, analyze_usage_pattern_issues_length]
    have i1 := indicator_mono hs
    have i2 := indicator_mono hc
    have i3 := indicator_mono hr
    have i4 := indicator_mono hn
    have i5 := indicator_mono hd
    omega
  have hHM : ("HIGH" : String) ≠ "MEDIUM" := by decide
  have hHL : ("HIGH" : String) ≠ "LOW" := by decide
  have hMH : ("MEDIUM" : String) ≠ "HIGH" := by decide
  have hML : ("MEDIUM" : String) ≠ "LOW" := by decide
  have hLH : ("LOW" : String) ≠ "HIGH" := by decide
  have hLM : ("LOW" : String) ≠ "MEDIUM" := by decide
  refine ⟨?_, ?_, ?_, ?_⟩
  · rw [analyze_usage_pattern_severity u1, analyze_usage_pattern_severity u2,
      sevRank_threshold, sevRank_threshold]
    split_ifs <;> omega
  · rw [analyze_usage_pattern_severity u2]
    split_ifs with h3 h1
    · simp [h3]
    · simp [h3, hMH]
    · simp [h3, hLH]
  · rw [analyze_usage_pattern_severity u2]
    split_ifs with h3 h1
    · simp only [hHM, false_iff]
      omega
    · simp only [true_iff, eq_self_iff_true]
      omega
    · simp only [hLM, false_iff]
      omega
  · rw [analyze_usage_pattern_severity u2]
    split_ifs with h3 h1
    · simp only [hHL, false_iff]
      omega
    · simp only [hML, false_iff]
      omega
    · simp only [true_iff, eq_self_iff_true]
      omega

/-- C7 witness: an input with no true check against one with two true
checks; the severity indeed does not decrease. -/
theorem c7_severity_monotone_witness :
    sevRank (analyze_usage_pattern ⟨1, "X", "x", "x"⟩ "spawn" false).severity
      ≤ sevRank (analyze_usage_pattern ⟨1, "bool", "x", "x"⟩ "spawn" true).severity :=
  (c7_severity_monotone ⟨1, "X", "x", "x"⟩ ⟨1, "bool", "x", "x"⟩ "spawn" "spawn" false true
    (by decide) (by decide) (by decide) (by decide) (by decide) (by decide)).1

/-- A suffix occurrence is in particular a substring occurrence. -/
theorem strContains_of_strEndsWith (s suf : String) (h : strEndsWith s suf = true) :
    strContains s suf = true := by
  unfold strEndsWith at h
  unfold strContains
  rw [decide_eq_true_eq] at h ⊢
  exact List.IsSuffix.isInfix h

/-- C9 counterexample: the path `src/latest_news.rs` contains no
tests-directory segment and ends with no test-suffix — the spec-side
classifier rejects it — yet `is_test_file` classifies it as test code,
because the substring `test_` occurs inside `latest_news`. -/
theorem c9_claim_counterexample :
    is_test_file "src/latest_news.rs" = true ∧
    spec_is_test_path "src/latest_news.rs" = false := by
  refine ⟨by decide, by decide⟩

/-- C9 (corrected): the code classifies a unit as test code iff its path
contains a tests-directory segment or ends with a test-suffix (the spec's
convention) OR merely contains the substring `test_` or the substring
`tests.rs` anywhere; the comprehensive_audit.py variant additionally
accepts any path containing `benches/`. -/
theorem c9_test_classification (path : String) :
    (is_test_file path = true ↔
      (spec_is_test_path path = true ∨ strContains path "test_" = true ∨
        strContains path "tests.rs" = true)) ∧
    (is_test_file_comprehensive path = true ↔
      (is_test_file path = true ∨ strContains path "benches/" = true)) := by
  have key := strContains_of_strEndsWith path "tests.rs"
  constructor
  · simp only [is_test_file, spec_is_test_path, Bool.or_eq_true]
    tauto
  · simp only [is_test_file, is_test_file_comprehensive, Bool.or_eq_true]

end Audit
